import Mathlib

/-!
# Verification of the PR-notification decision engine

A shallow embedding, in Lean 4, of the decision logic of the
`pr-notification-app` GitHub App: the status formatter, the notification
gate, the recipient resolver, the check-run aggregator and the
ready-to-merge evaluator, each translated from the JavaScript source.
External collaborators (the GitHub API, SMTP delivery) are passed in as
explicit oracle arguments; the in-memory deduplication maps become
explicit state threaded through the functions.

JavaScript conventions used throughout the embedding:
strings that may be `null`/`undefined` become `Option String`; JS
truthiness of a string (`null`, `undefined` and `""` are falsy) is
`jsTruthy`; `a || b` on such strings is `jsOrStr`.
-/

namespace PRNotify

/-- JS truthiness of a possibly-null string: `null`/`undefined`/`""` are falsy. -/
def jsTruthy : Option String → Bool
  | some s => s ≠ ""
  | none => false

/-- JS `a || b` on possibly-null strings. -/
def jsOrStr (a b : Option String) : Option String :=
  if jsTruthy a then a else b

/-! ## Status formatter (`src/utils/validators.js`, `src/constants/eventConfig.js`) -/

/-- `STATUS_MAPPINGS` entry: `{ status, emoji, color }`. -/
structure StatusInfo where
  status : String
  emoji : String
  color : String
deriving Repr, DecidableEq

/-- `STATUS_MAPPINGS` from `src/constants/eventConfig.js`. -/
def statusMappings : List (String × StatusInfo) :=
  [ ("success", ⟨"SUCCESS", "✅", "#28a745"⟩),
    ("failure", ⟨"FAILURE", "❌", "#dc3545"⟩),
    ("cancelled", ⟨"CANCELLED", "⏹️", "#6c757d"⟩),
    ("timed_out", ⟨"TIMED OUT", "⏰", "#fd7e14"⟩),
    ("action_required", ⟨"ACTION REQUIRED", "⚠️", "#ffc107"⟩),
    ("neutral", ⟨"NEUTRAL", "ℹ️", "#17a2b8"⟩),
    ("skipped", ⟨"SKIPPED", "⏭️", "#6c757d"⟩),
    ("pending", ⟨"PENDING", "🔄", "#007bff"⟩),
    ("queued", ⟨"QUEUED", "📋", "#007bff"⟩),
    ("in_progress", ⟨"IN PROGRESS", "🔄", "#007bff"⟩),
    ("completed", ⟨"COMPLETED", "✅", "#28a745"⟩),
    ("opened", ⟨"OPENED", "🎉", "#28a745"⟩),
    ("edited", ⟨"EDITED", "✏️", "#0366d6"⟩),
    ("closed", ⟨"CLOSED", "❌", "#dc3545"⟩),
    ("merged", ⟨"MERGED", "🎉", "#6f42c1"⟩),
    ("reopened", ⟨"REOPENED", "🔄", "#0366d6"⟩),
    ("synchronize", ⟨"UPDATED", "🔄", "#0366d6"⟩),
    ("ready_for_review", ⟨"READY FOR REVIEW", "👀", "#28a745"⟩),
    ("review_requested", ⟨"REVIEW REQUESTED", "👥", "#0366d6"⟩),
    ("ready_to_merge", ⟨"READY TO MERGE", "🚀", "#28a745"⟩),
    ("submitted", ⟨"SUBMITTED", "📝", "#0366d6"⟩),
    ("dismissed", ⟨"DISMISSED", "🚫", "#dc3545"⟩),
    ("created", ⟨"CREATED", "💬", "#0366d6"⟩),
    ("push", ⟨"PUSHED", "📝", "#0366d6"⟩) ]

/-- `STATUS_MAPPINGS[key]` lookup in a given table. -/
def lookupStatus (table : List (String × StatusInfo)) (k : String) : Option StatusInfo :=
  (table.find? (fun kv => kv.1 == k)).map (fun kv => kv.2)

/-- JS `String.prototype.toUpperCase` restricted to ASCII, character by
character (the status keys of this app are all ASCII). -/
def jsToUpper (s : String) : String :=
  ⟨s.data.map Char.toUpper⟩

/-- The fallback `{ status: (key || 'UNKNOWN').toUpperCase(), emoji: '❓', color: '#6c757d' }`
built by `StatusFormatter.formatStatus` when the lookup key misses the table. -/
def fallbackStatusInfo (key : Option String) : StatusInfo :=
  ⟨(if jsTruthy key then jsToUpper (key.getD "") else "UNKNOWN"), "❓", "#6c757d"⟩

/-- `StatusFormatter.formatStatus(status, conclusion, emojiOverride)` from
`src/utils/validators.js`, as a pure function of the (immutable) table:
`key = conclusion || status`, table lookup with the fallback entry, then
`if (emojiOverride) result.emoji = emojiOverride`.  (The mutation the JS
assignment performs on the shared table entry is modelled separately by
`formatStatusM` below.) -/
def formatStatus (status conclusion emojiOverride : Option String) : StatusInfo :=
  let key := jsOrStr conclusion status
  let base :=
    match key with
    | some k => (lookupStatus statusMappings k).getD (fallbackStatusInfo key)
    | none => fallbackStatusInfo key
  if jsTruthy emojiOverride then { base with emoji := emojiOverride.getD "" } else base

/-- `StatusFormatter.formatStatus` with the table state made explicit.
In the JS source, `result` aliases the shared `STATUS_MAPPINGS[key]` object
when the lookup hits, so `result.emoji = emojiOverride` writes through to
the shared table; on a miss the fallback is a fresh object and the table is
untouched.  Returns the `StatusInfo` the caller sees and the table as left
behind by the call. -/
def formatStatusM (table : List (String × StatusInfo))
    (status conclusion emojiOverride : Option String) :
    StatusInfo × List (String × StatusInfo) :=
  let key := jsOrStr conclusion status
  match key with
  | some k =>
    match lookupStatus table k with
    | some found =>
      if jsTruthy emojiOverride then
        let updated := { found with emoji := emojiOverride.getD "" }
        (updated, table.map (fun kv => if kv.1 == k then (kv.1, updated) else kv))
      else (found, table)
    | none =>
      let fresh := fallbackStatusInfo key
      if jsTruthy emojiOverride then
        ({ fresh with emoji := emojiOverride.getD "" }, table)
      else (fresh, table)
  | none =>
    let fresh := fallbackStatusInfo none
    if jsTruthy emojiOverride then
      ({ fresh with emoji := emojiOverride.getD "" }, table)
    else (fresh, table)

/-! ## Notification gate (`AppConfig.isEventEnabled`, `src/config/appConfig.js`) -/

/-- The six per-category `NOTIFY_*` environment switches consumed by the gate,
each modelled as the boolean `process.env.X === 'true'`. -/
structure NotifyConfig where
  prLifecycle : Bool
  prReviews : Bool
  prComments : Bool
  checkResults : Bool
  prUpdates : Bool
  deployments : Bool
deriving Repr, DecidableEq

/-- `AppConfig.isEventEnabled(eventType, action)` from `src/config/appConfig.js`:
a chain of category tests, each returning its category's switch, with a
fail-closed `false` default.  `action` defaults to `null` in the source, hence
`Option String`. -/
def isEventEnabled (cfg : NotifyConfig) (eventType : String) (action : Option String) : Bool :=
  if eventType == "pull_request" &&
      (action == some "opened" || action == some "closed" || action == some "reopened") then
    cfg.prLifecycle
  else if eventType == "pull_request_review" &&
      (action == some "submitted" || action == some "dismissed") then
    cfg.prReviews
  else if (eventType == "issue_comment" && action == some "created") ||
      (eventType == "pull_request_review_comment" && action == some "created") then
    cfg.prComments
  else if (eventType == "check_run" && action == some "completed") ||
      (eventType == "check_suite" && action == some "completed") then
    cfg.checkResults
  else if eventType == "pull_request" &&
      (action == some "synchronize" || action == some "edited" ||
       action == some "ready_for_review" || action == some "review_requested") then
    cfg.prUpdates
  else if eventType == "deployment" || eventType == "deployment_status" then
    cfg.deployments
  else
    false

/-- The six fixed event categories of the gate. -/
inductive GateCategory where
  | lifecycle | reviews | comments | checkResults | updates | deployments
deriving Repr, DecidableEq

/-- Spec-side categorisation of an `(eventType, action)` pair, written from the
claim's category table (lifecycle, reviews, comments, check_results, updates,
deployments); pairs outside the table get `none`. -/
def claimCategory (eventType : String) (action : Option String) : Option GateCategory :=
  if eventType = "pull_request" ∧ action ∈ [some "opened", some "closed", some "reopened"] then
    some .lifecycle
  else if eventType = "pull_request_review" ∧ action ∈ [some "submitted", some "dismissed"] then
    some .reviews
  else if (eventType = "issue_comment" ∧ action = some "created") ∨
      (eventType = "pull_request_review_comment" ∧ action = some "created") then
    some .comments
  else if (eventType = "check_run" ∧ action = some "completed") ∨
      (eventType = "check_suite" ∧ action = some "completed") then
    some .checkResults
  else if eventType = "pull_request" ∧
      action ∈ [some "synchronize", some "edited", some "ready_for_review",
        some "review_requested"] then
    some .updates
  else if eventType = "deployment" ∨ eventType = "deployment_status" then
    some .deployments
  else
    none

/-- The configuration switch of each category. -/
def categorySwitch (cfg : NotifyConfig) : GateCategory → Bool
  | .lifecycle => cfg.prLifecycle
  | .reviews => cfg.prReviews
  | .comments => cfg.prComments
  | .checkResults => cfg.checkResults
  | .updates => cfg.prUpdates
  | .deployments => cfg.deployments

/-! ## Recipient resolver (`NotificationService.determineRecipients`) -/

/-- The pull-request fields the decision engine reads.  `userLogin` is
`pr.user.login`; assignees and requested reviewers are kept as login lists. -/
structure PullRequest where
  number : Nat
  title : String
  htmlUrl : String
  userLogin : String
  assignees : List String
  requestedReviewers : List String
  mergeableState : Option String
  draft : Bool
deriving Repr, DecidableEq

/-- JS `Set.add`: insertion-ordered, first occurrence wins. -/
def jsSetAdd (acc : List String) (u : String) : List String :=
  if acc.contains u then acc else acc ++ [u]

/-- A JS `Set` built by adding the elements of a list in order. -/
def jsSetOf (l : List String) : List String :=
  l.foldl jsSetAdd []

/-- `GitHubService.getAdditionalPRRecipients(context, pullRequest, prCreator)`:
assignees then requested reviewers, each excluding the PR creator, collected
into a `Set`, then resolved to emails (`getBulkUserEmails` keeps the
successfully resolved addresses in order).  The identity lookup
(`getUserEmail`) is the oracle `emailOf`. -/
def getAdditionalPRRecipients (emailOf : String → Option String)
    (pullRequest : PullRequest) (prCreator : String) : List String :=
  let additionalUsernames :=
    jsSetOf ((pullRequest.assignees.filter (fun a => a ≠ prCreator)) ++
      (pullRequest.requestedReviewers.filter (fun r => r ≠ prCreator)))
  additionalUsernames.filterMap emailOf

/-- `NotificationService.getConfiguredAdditionalRecipients`: the statically
configured email addresses followed by the emails resolved from the
statically configured usernames. -/
def getConfiguredAdditionalRecipients (emailOf : String → Option String)
    (cfgEmails cfgUsernames : List String) : List String :=
  cfgEmails ++ cfgUsernames.filterMap emailOf

/-- `NotificationService.determineRecipients(context, pr, customRecipients)`
from the current notification service: the PR owner's email first when it
resolves; then, when the additional-recipients flag is enabled, either the
custom recipients filtered against the accumulated list, or the default
additional recipients (PR assignees/reviewers plus configured addresses)
filtered against the accumulated list.  Returns the email list and the
`prCreatorNotified` flag. -/
def determineRecipients (emailOf : String → Option String) (includeAdditional : Bool)
    (cfgEmails cfgUsernames : List String) (pr : PullRequest)
    (customRecipients : Option (List String)) : List String × Bool :=
  let base := match emailOf pr.userLogin with
    | some e => [e]
    | none => []
  let defaultAdditional :=
    let allAdditional := getAdditionalPRRecipients emailOf pr pr.userLogin ++
      getConfiguredAdditionalRecipients emailOf cfgEmails cfgUsernames
    allAdditional.filter (fun e => !(base.contains e))
  let emails :=
    if includeAdditional then
      match customRecipients with
      | some cs =>
        if cs.length > 0 then base ++ cs.filter (fun e => !(base.contains e))
        else base ++ defaultAdditional
      | none => base ++ defaultAdditional
    else base
  (emails, (emailOf pr.userLogin).isSome)

/-! ## Ready-to-merge evaluator (`PullRequestHandler.checkAndNotifyReadyToMerge`) -/

/-- The in-memory dedup maps (`recentReadyToMergeEvents`, `recentEvents`):
key to timestamp in milliseconds. -/
abbrev EventMap := String → Option Nat

/-- The empty dedup map. -/
def emptyMap : EventMap := fun _ => none

/-- `Map.set(key, ts)`. -/
def setKey (m : EventMap) (k : String) (ts : Nat) : EventMap :=
  fun k' => if k' = k then some ts else m k'

/-- The lazy eviction loop of `isRecentEvent`: drop every entry with
`now - timestamp > window`.  (JS subtraction of a later timestamp is
negative, hence never `> window`; `Nat` subtraction truncates to `0` with
the same effect.) -/
def evictOld (window now : Nat) (m : EventMap) : EventMap :=
  fun k => match m k with
    | some ts => if now - ts > window then none else some ts
    | none => none

/-- The 30-minute ready-to-merge dedup window. -/
def readyWindowMs : Nat := 30 * 60 * 1000

/-- A possibly-null string rendered into a JS template literal. -/
def optStr : Option String → String
  | some s => s
  | none => "null"

/-- The structured result object of `checkAndNotifyReadyToMerge`. -/
structure RTMResult where
  success : Bool
  reason : Option String
  error : Option String
  mergeableState : Option (Option String)
deriving Repr, DecidableEq

/-- `BaseHandler.createNotificationData(subject, description, detailsUrl, statusInfo, summary)`. -/
structure NotificationData where
  subject : String
  description : String
  detailsUrl : String
  statusInfo : StatusInfo
  summary : Option String
deriving Repr, DecidableEq

/-- What one evaluator invocation leaves behind: its structured result, the
dedup map as updated, and the notification data handed to
`sendReadyToMergeNotification` when a dispatch was performed. -/
structure RTMOutcome where
  result : RTMResult
  map : EventMap
  dispatched : Option NotificationData

/-- The `switch (mergeableState)` of `checkAndNotifyReadyToMerge`:
`clean` and `unstable` are notification-worthy and carry
`(statusEmoji, statusText, statusDescription)`; every other value
(including `null`) falls to the default arm, `none`. -/
def classifyMergeable (mergeableState : Option String) : Option (String × String × String) :=
  if mergeableState == some "clean" then
    some ("🚀", "READY TO MERGE", "Mergeable and all checks passing")
  else if mergeableState == some "unstable" then
    some ("⚠️", "READY TO MERGE (UNSTABLE)", "Mergeable but some checks are not passing")
  else
    none

/-- `PullRequestHandler.checkAndNotifyReadyToMerge(context, pr, triggerEvent)`
from `src/handlers/pullRequestHandler.js`.  The PR re-fetch
(`context.octokit.pulls.get`) is the oracle `fetchPR` (`.error` models a
thrown API error, caught by the surrounding `try`); the result of
`notificationService.sendReadyToMergeNotification` is the oracle
`sendResult`.  `now` is `Date.now()`, `m` the static
`recentReadyToMergeEvents` map, `pr` the payload PR object and
`triggerEvent` the trigger tag (used only for logging in the source). -/
def checkAndNotifyReadyToMerge (fetchPR : Except String PullRequest)
    (sendResult : RTMResult) (now : Nat) (m : EventMap) (pr : PullRequest)
    (_triggerEvent : String) : RTMOutcome :=
  match fetchPR with
  | .error e => ⟨⟨false, none, some e, none⟩, m, none⟩
  | .ok freshPR =>
    match classifyMergeable freshPR.mergeableState with
    | none =>
      ⟨⟨true, some "not_notification_worthy", none, some freshPR.mergeableState⟩, m, none⟩
    | some (statusEmoji, statusText, statusDescription) =>
      let eventKey := "ready_to_merge_" ++ toString pr.number
      let evicted := evictOld readyWindowMs now m
      if (evicted eventKey).isSome then
        ⟨⟨true, some "already_notified_recently", none, none⟩, evicted, none⟩
      else
        let tracked := setKey evicted eventKey now
        ⟨sendResult, tracked,
          some ⟨"PR #" ++ toString pr.number ++ " Ready to Merge: " ++ pr.title,
            statusDescription, pr.htmlUrl, ⟨statusText, statusEmoji, "#28a745"⟩,
            some ("🎯 Mergeable State: " ++ optStr freshPR.mergeableState ++ "\n📝 " ++
              statusDescription ++ "\n🔗 Ready to merge and deploy!")⟩⟩

/-- `1` when the invocation handed a notification to the dispatch path. -/
def dispatchCount (o : RTMOutcome) : Nat :=
  if o.dispatched.isSome then 1 else 0

/-! ## Ready-to-merge dispatch (`NotificationService.sendReadyToMergeNotification`) -/

/-- Modelled from the spec: `AppConfig.isNotificationEnabled`, called by
`NotificationValidator.shouldSendNotification`, is not among the source
files (only the superseded `AppConfig.isEventEnabled` is).  Per the spec's
Notification Gate section, it extends the six-category gate with a distinct
ready-to-merge switch that bypasses the per-category gate entirely and is
controllable independently of the six category switches. -/
def isNotificationEnabled (cfg : NotifyConfig) (readyToMergeEnabled : Bool)
    (eventType : String) (action : Option String) : Bool :=
  if eventType == "pull_request" && action == some "ready_to_merge" then
    readyToMergeEnabled
  else
    isEventEnabled cfg eventType action

/-- The structured result object of `sendReadyToMergeNotification`. -/
structure SendOutcome where
  success : Bool
  reason : Option String
  error : Option String
  recipients : List String
deriving Repr, DecidableEq

/-- `NotificationService.sendReadyToMergeNotification(context, data)` from the
current notification service: gate on the ready-to-merge switch, validate
the context (a failed validation throws and is caught, yielding an error
result), require a PR in the payload, resolve recipients via
`determineRecipients` with no custom list, and dispatch once to the resolved
recipients.  `sendSuccess` is the oracle for the bulk email send; the second
component counts dispatch attempts. -/
def sendReadyToMergeNotification (cfg : NotifyConfig) (readyToMergeEnabled : Bool)
    (ctxValid : Bool) (emailOf : String → Option String) (includeAdditional : Bool)
    (cfgEmails cfgUsernames : List String) (payloadPR : Option PullRequest)
    (sendSuccess : Bool) : SendOutcome × Nat :=
  if !(isNotificationEnabled cfg readyToMergeEnabled "pull_request" (some "ready_to_merge")) then
    (⟨false, some "Ready-to-merge notifications disabled", none, []⟩, 0)
  else if !ctxValid then
    (⟨false, none, some "Invalid context", []⟩, 0)
  else
    match payloadPR with
    | none => (⟨false, none, some "No pull request found in payload", []⟩, 0)
    | some pr =>
      let recipients :=
        (determineRecipients emailOf includeAdditional cfgEmails cfgUsernames pr none).1
      if recipients.isEmpty then
        (⟨false, some "No email recipients found", none, []⟩, 0)
      else
        (⟨sendSuccess, none, none, recipients⟩, 1)

/-! ## Check-run aggregator and handler (`src/handlers/checkRunHandler.js`) -/

/-- The check-run fields the handler reads.  `pullRequests` keeps the PR
numbers of the payload's `pull_requests` array. -/
structure CheckRun where
  id : Nat
  name : String
  status : String
  conclusion : Option String
  headSha : String
  htmlUrl : String
  pullRequests : List Nat
deriving Repr, DecidableEq

/-- The `conclusion` values `analyzeCheckRuns` counts as failed. -/
def failedConclusions : List String := ["failure", "timed_out", "action_required"]

/-- The `conclusion` values `analyzeCheckRuns` counts as skipped. -/
def skippedConclusions : List String := ["skipped", "neutral", "cancelled"]

/-- JS `list.includes(run.conclusion)` on a possibly-null conclusion. -/
def conclusionIn (cs : List String) (conclusion : Option String) : Bool :=
  match conclusion with
  | some c => cs.contains c
  | none => false

/-- The summary object built by `CheckRunHandler.analyzeCheckRuns`. -/
structure CheckRunSummary where
  total : Nat
  completed : Nat
  inProgress : Nat
  passed : Nat
  failed : Nat
  skipped : Nat
  triggeringCheck : String
  allCompleted : Bool
  passedChecks : List (String × String)
  failedChecks : List (String × String × Option String)
  inProgressChecks : List (String × String)
deriving Repr, DecidableEq

/-- `CheckRunHandler.analyzeCheckRuns(allCheckRuns, triggeringCheckName)`:
partition by `status == 'completed'`, classify completed conclusions into
passed/failed/skipped, and set `allCompleted = (inProgress.length === 0)`. -/
def analyzeCheckRuns (allCheckRuns : List CheckRun)
    (triggeringCheckName : String) : CheckRunSummary :=
  let completed := allCheckRuns.filter (fun run => run.status == "completed")
  let inProgress := allCheckRuns.filter (fun run => run.status != "completed")
  let passed := completed.filter (fun run => run.conclusion == some "success")
  let failed := completed.filter (fun run => conclusionIn failedConclusions run.conclusion)
  let skipped := completed.filter (fun run => conclusionIn skippedConclusions run.conclusion)
  { total := allCheckRuns.length
    completed := completed.length
    inProgress := inProgress.length
    passed := passed.length
    failed := failed.length
    skipped := skipped.length
    triggeringCheck := triggeringCheckName
    allCompleted := inProgress.length == 0
    passedChecks := passed.map (fun run => (run.name, run.htmlUrl))
    failedChecks := failed.map (fun run => (run.name, run.htmlUrl, run.conclusion))
    inProgressChecks := inProgress.map (fun run => (run.name, run.status)) }

/-- The eviction loop of `handleCheckRun`: drop every entry with
`timestamp < fiveMinutesAgo`. -/
def evictBefore (cutoff : Nat) (m : EventMap) : EventMap :=
  fun k => match m k with
    | some ts => if ts < cutoff then none else some ts
    | none => none

/-- The 5-minute raw-event tracking window. -/
def checkWindowMs : Nat := 5 * 60 * 1000

/-- The result object `handleCheckRun` returns. -/
structure CheckRunHandleResult where
  success : Bool
  processed : Option Nat
  total : Option Nat
  reason : Option String
  error : Option String
deriving Repr, DecidableEq

/-- `true` on `Except.ok`. -/
def exceptOk {ε α : Type} : Except ε α → Bool
  | .ok _ => true
  | .error _ => false

/-- `CheckRunHandler.handleCheckRun(context, action)` from
`src/handlers/checkRunHandler.js`.  Oracles: `allCheckRuns` is the
`getAllCheckRuns` re-listing for the head SHA (its API errors already
collapse to `[]` in the source); `fetchPR` is the per-PR
`octokit.pulls.get` (`.error` models a thrown API error, caught per PR);
`sendOk` is the success flag of `sendPRNotification` per PR.  The summary
built by `analyzeCheckRuns` only feeds the composed email text, which the
send oracle absorbs.  Returns the result object, the `recentEvents` map as
left behind, and the number of notification attempts (`sendPRNotification`
calls). -/
def handleCheckRun (_allCheckRuns : List CheckRun)
    (fetchPR : Nat → Except String PullRequest) (sendOk : Nat → Bool)
    (checkRunPayload : Option CheckRun) (action : String) (now : Nat)
    (m : EventMap) : CheckRunHandleResult × EventMap × Nat :=
  match checkRunPayload with
  | none => (⟨false, none, none, none, some "Missing check_run data"⟩, m, 0)
  | some checkRun =>
    let eventKey := checkRun.headSha ++ "-" ++ checkRun.name ++ "-" ++ action
    let tracked := setKey m eventKey now
    let cleaned := evictBefore (now - checkWindowMs) tracked
    if action != "completed" then
      (⟨false, none, none, some ("Action '" ++ action ++ "' not processed"), none⟩,
        cleaned, 0)
    else if checkRun.pullRequests.isEmpty then
      (⟨false, none, none, some "No associated pull requests", none⟩, cleaned, 0)
    else
      let attempts := (checkRun.pullRequests.filter (fun n => exceptOk (fetchPR n))).length
      let successCount :=
        (checkRun.pullRequests.filter (fun n => exceptOk (fetchPR n) && sendOk n)).length
      let totalCount := checkRun.pullRequests.length
      (⟨decide (successCount > 0), some successCount, some totalCount,
        if successCount == 0 then some "No notifications sent" else none, none⟩,
        cleaned, attempts)

/-! ## Concrete fixtures used by witnesses and counterexamples -/

/-- A sample payload PR. -/
def samplePR : PullRequest :=
  ⟨42, "Add feature", "https://example.test/pr/42", "octocat", [], [], some "clean", false⟩

/-- The sample PR as re-fetched with `mergeable_state = 'dirty'`. -/
def sampleDirtyPR : PullRequest := { samplePR with mergeableState := some "dirty" }

/-- A successful dispatch result for the send oracle. -/
def sampleSend : RTMResult := ⟨true, none, none, none⟩

/-- An identity-lookup oracle resolving only the login `"octocat"`. -/
def sampleEmailOf : String → Option String :=
  fun u => if u = "octocat" then some "octocat@x.example" else none

/-- Five completed check runs, all with conclusion `success`. -/
def fiveSuccessRuns : List CheckRun :=
  [ ⟨1, "check-1", "completed", some "success", "sha1", "u1", []⟩,
    ⟨2, "check-2", "completed", some "success", "sha1", "u2", []⟩,
    ⟨3, "check-3", "completed", some "success", "sha1", "u3", []⟩,
    ⟨4, "check-4", "completed", some "success", "sha1", "u4", []⟩,
    ⟨5, "check-5", "completed", some "success", "sha1", "u5", []⟩ ]

end PRNotify

namespace PRNotify

/-! ### Theorems about the status formatter -/

/-- C6 counterexample: for the unmatched key `"bogus"` the fallback label is
`"BOGUS"` (the key uppercased), not `"UNKNOWN"` as the claim states. -/
theorem formatStatus_bogus_label_not_unknown :
    lookupStatus statusMappings "bogus" = none ∧
    (formatStatus (some "bogus") none none).status = "BOGUS" ∧
    (formatStatus (some "bogus") none none).status ≠ "UNKNOWN" := by
  refine ⟨by decide, by decide, by decide⟩

/-- C6 (amended): for every `(status, conclusion)` pair whose lookup key
(`conclusion || status`) is not in the fixed table, `formatStatus` returns
the non-null fallback `StatusInfo` whose label is the key uppercased when
the key is a non-empty string and `"UNKNOWN"` when it is null/empty, with
emoji `"❓"` and color `"#6c757d"` absent an override; being a total Lean
function, it never fails. -/
theorem formatStatus_fallback (status conclusion : Option String)
    (h : ∀ k, jsOrStr conclusion status = some k → lookupStatus statusMappings k = none) :
    formatStatus status conclusion none = fallbackStatusInfo (jsOrStr conclusion status) ∧
    (formatStatus status conclusion none).emoji = "❓" ∧
    (formatStatus status conclusion none).color = "#6c757d" ∧
    (formatStatus status conclusion none).status =
      (if jsTruthy (jsOrStr conclusion status)
        then jsToUpper ((jsOrStr conclusion status).getD "") else "UNKNOWN") := by
  have hmain : formatStatus status conclusion none
      = fallbackStatusInfo (jsOrStr conclusion status) := by
    unfold formatStatus
    cases hk : jsOrStr conclusion status with
    | none => simp [jsTruthy]
    | some k => simp [h k hk, jsTruthy]
  refine ⟨hmain, ?_, ?_, ?_⟩ <;> rw [hmain] <;> simp [fallbackStatusInfo]

/-- Witness for `formatStatus_fallback` at the concrete unmatched key `"bogus"`. -/
theorem formatStatus_fallback_witness :
    formatStatus (some "bogus") none none = fallbackStatusInfo (some "bogus") :=
  (formatStatus_fallback (some "bogus") none (by decide)).1

/-! ### Theorems about the notification gate -/

/-- C3: the gate returns `true` exactly when the `(eventType, action)` pair
belongs to one of the six fixed categories of the claim's table and that
category's configuration switch is enabled; every pair outside the table
yields `false` (fail-closed). -/
theorem isEventEnabled_eq_claimCategory (cfg : NotifyConfig) (eventType : String)
    (action : Option String) :
    isEventEnabled cfg eventType action =
      ((claimCategory eventType action).map (categorySwitch cfg)).getD false := by
  unfold isEventEnabled claimCategory
  split_ifs <;> simp_all [categorySwitch, List.mem_cons]

/-- C9 at the failing input: looking up the table key `"success"` with the
emoji override `"X"` writes the override through to the shared
`STATUS_MAPPINGS` entry, so a later lookup of `"success"` with no override
returns emoji `"X"` instead of the table's original `"✅"`. -/
theorem formatStatus_override_mutates_table :
    (formatStatusM statusMappings (some "success") none (some "X")).1.emoji = "X" ∧
    lookupStatus statusMappings "success" = some ⟨"SUCCESS", "✅", "#28a745"⟩ ∧
    (formatStatusM ((formatStatusM statusMappings (some "success") none (some "X")).2)
      (some "success") none none).1.emoji = "X" := by
  refine ⟨by decide, by decide, by decide⟩

/-! ### Theorems about the ready-to-merge evaluator -/

/-- C1: after the re-fetch, the evaluator decides solely by the fetched
`mergeable_state`: `clean` classifies as notification-worthy with label
`"READY TO MERGE"`, `unstable` with label `"READY TO MERGE (UNSTABLE)"`,
every other value (dirty, blocked, behind, unknown, divergent, has_hooks,
null, anything else) classifies as not worthy, upon which the evaluator
returns a `not_notification_worthy` result without dispatching and without
touching the dedup map; and whenever a notification is dispatched its
status label is exactly the classified label. -/
theorem rtm_decides_by_mergeable_state (send : RTMResult) (now : Nat) (m : EventMap)
    (pr freshPR : PullRequest) (trigger : String) :
    (classifyMergeable (some "clean")).map (fun x => x.2.1) = some "READY TO MERGE" ∧
    (classifyMergeable (some "unstable")).map (fun x => x.2.1) =
      some "READY TO MERGE (UNSTABLE)" ∧
    (∀ ms : Option String, ms ≠ some "clean" → ms ≠ some "unstable" →
      classifyMergeable ms = none) ∧
    (classifyMergeable freshPR.mergeableState = none →
      checkAndNotifyReadyToMerge (.ok freshPR) send now m pr trigger =
        ⟨⟨true, some "not_notification_worthy", none, some freshPR.mergeableState⟩,
          m, none⟩) ∧
    (∀ d, (checkAndNotifyReadyToMerge (.ok freshPR) send now m pr trigger).dispatched =
        some d →
      ∃ e t desc, classifyMergeable freshPR.mergeableState = some (e, t, desc) ∧
        d.statusInfo.status = t) := by
  refine ⟨rfl, rfl, ?_, ?_, ?_⟩
  · intro ms h1 h2
    unfold classifyMergeable
    simp only [beq_iff_eq]
    rw [if_neg h1, if_neg h2]
  · intro h
    simp only [checkAndNotifyReadyToMerge, h]
  · intro d hd
    simp only [checkAndNotifyReadyToMerge] at hd
    generalize hcm : classifyMergeable freshPR.mergeableState = c at hd
    cases c with
    | none => simp at hd
    | some v =>
      obtain ⟨e, t, desc⟩ := v
      simp only at hd
      split at hd
      · simp at hd
      · refine ⟨e, t, desc, rfl, ?_⟩
        simp only [Option.some.injEq] at hd
        rw [← hd]

/-- Witness for `rtm_decides_by_mergeable_state`: a fetched `dirty` state
short-circuits with no dispatch and the map untouched. -/
theorem rtm_decides_by_mergeable_state_witness :
    checkAndNotifyReadyToMerge (.ok sampleDirtyPR) sampleSend 1000 emptyMap samplePR
        "synchronize" =
      ⟨⟨true, some "not_notification_worthy", none, some (some "dirty")⟩,
        emptyMap, none⟩ :=
  (rtm_decides_by_mergeable_state sampleSend 1000 emptyMap samplePR sampleDirtyPR
    "synchronize").2.2.2.1 (by decide)

/-- If the 30-minute window already holds an entry for the PR's dedup key,
the evaluator never dispatches, whatever the fetch returned. -/
theorem rtm_recent_no_dispatch (fetch : Except String PullRequest) (send : RTMResult)
    (now : Nat) (m : EventMap) (pr : PullRequest) (trigger : String)
    (h : ((evictOld readyWindowMs now m) ("ready_to_merge_" ++ toString pr.number)).isSome =
      true) :
    (checkAndNotifyReadyToMerge fetch send now m pr trigger).dispatched = none := by
  cases fetch with
  | error e => rfl
  | ok freshPR =>
    simp only [checkAndNotifyReadyToMerge]
    generalize classifyMergeable freshPR.mergeableState = c
    cases c with
    | none => rfl
    | some v =>
      obtain ⟨e, t, desc⟩ := v
      simp only [h, if_true]

/-- A dispatching invocation records `now` under the PR's dedup key. -/
theorem rtm_dispatch_records_key (fetch : Except String PullRequest) (send : RTMResult)
    (now : Nat) (m : EventMap) (pr : PullRequest) (trigger : String)
    (h : (checkAndNotifyReadyToMerge fetch send now m pr trigger).dispatched ≠ none) :
    (checkAndNotifyReadyToMerge fetch send now m pr trigger).map
      ("ready_to_merge_" ++ toString pr.number) = some now := by
  cases fetch with
  | error e => simp [checkAndNotifyReadyToMerge] at h
  | ok freshPR =>
    simp only [checkAndNotifyReadyToMerge] at h ⊢
    generalize classifyMergeable freshPR.mergeableState = c at h ⊢
    cases c with
    | none => simp at h
    | some v =>
      obtain ⟨e, t, desc⟩ := v
      simp only at h ⊢
      split at h
      · simp at h
      · rename_i hrec
        rw [if_neg hrec]
        simp [setKey]

/-- Every invocation dispatches at most once. -/
theorem dispatchCount_le_one (o : RTMOutcome) : dispatchCount o ≤ 1 := by
  unfold dispatchCount
  split <;> simp

/-- C2: two evaluator invocations for the same PR number, the second within
30 minutes of the first, dispatch at most one ready-to-merge notification
between them, whatever their triggers, fetch results and send results: the
dedup key is the PR number alone, and a dispatch records the key for the
trailing window. -/
theorem rtm_dedup_at_most_one (fetch1 fetch2 : Except String PullRequest)
    (send1 send2 : RTMResult) (t1 t2 : Nat) (m0 : EventMap) (pr1 pr2 : PullRequest)
    (trig1 trig2 : String) (hpr : pr1.number = pr2.number) (h12 : t1 ≤ t2)
    (h30 : t2 ≤ t1 + readyWindowMs) :
    dispatchCount (checkAndNotifyReadyToMerge fetch1 send1 t1 m0 pr1 trig1) +
      dispatchCount (checkAndNotifyReadyToMerge fetch2 send2 t2
        (checkAndNotifyReadyToMerge fetch1 send1 t1 m0 pr1 trig1).map pr2 trig2) ≤ 1 := by
  by_cases h1 : (checkAndNotifyReadyToMerge fetch1 send1 t1 m0 pr1 trig1).dispatched = none
  · have hz : dispatchCount (checkAndNotifyReadyToMerge fetch1 send1 t1 m0 pr1 trig1) = 0 := by
      unfold dispatchCount
      simp [h1]
    rw [hz]
    simpa using dispatchCount_le_one _
  · have hrec := rtm_dispatch_records_key fetch1 send1 t1 m0 pr1 trig1 h1
    have hkey :
        ((evictOld readyWindowMs t2
            (checkAndNotifyReadyToMerge fetch1 send1 t1 m0 pr1 trig1).map)
          ("ready_to_merge_" ++ toString pr2.number)).isSome = true := by
      rw [← hpr]
      unfold evictOld
      rw [hrec]
      have : ¬ (t2 - t1 > readyWindowMs) := by omega
      simp [this]
    have h2 := rtm_recent_no_dispatch fetch2 send2 t2
      (checkAndNotifyReadyToMerge fetch1 send1 t1 m0 pr1 trig1).map pr2 trig2 hkey
    have hz2 : dispatchCount (checkAndNotifyReadyToMerge fetch2 send2 t2
        (checkAndNotifyReadyToMerge fetch1 send1 t1 m0 pr1 trig1).map pr2 trig2) = 0 := by
      unfold dispatchCount
      simp [h2]
    rw [hz2]
    simpa using dispatchCount_le_one _

/-- Witness for `rtm_dedup_at_most_one`: the same PR evaluated at `t=1000`
and again at `t=2000` (well inside 30 minutes) dispatches at most once. -/
theorem rtm_dedup_at_most_one_witness :
    dispatchCount (checkAndNotifyReadyToMerge (.ok samplePR) sampleSend 1000 emptyMap
        samplePR "review_approved") +
      dispatchCount (checkAndNotifyReadyToMerge (.ok samplePR) sampleSend 2000
        (checkAndNotifyReadyToMerge (.ok samplePR) sampleSend 1000 emptyMap samplePR
          "review_approved").map samplePR "check_success") ≤ 1 :=
  rtm_dedup_at_most_one (.ok samplePR) (.ok samplePR) sampleSend sampleSend 1000 2000
    emptyMap samplePR samplePR "review_approved" "check_success" rfl (by decide)
    (by decide)

/-- C8: when the PR re-fetch throws, the evaluator catches the error locally
and returns a structured failure carrying the error string, with no
notification dispatched and the dedup map untouched (the embedding is a
total function: no exception escapes). -/
theorem rtm_fetch_error_fail_safe (e : String) (send : RTMResult) (now : Nat)
    (m : EventMap) (pr : PullRequest) (trigger : String) :
    checkAndNotifyReadyToMerge (.error e) send now m pr trigger =
      ⟨⟨false, none, some e, none⟩, m, none⟩ := rfl

/-! ### Theorems about the recipient resolver -/

/-- C5 at the failing input: with the owner resolving to
`"owner@x.example"` and the custom recipient list holding
`"dup@x.example"` twice, `determineRecipients` keeps the owner at index 0
but returns the duplicate address twice — the custom list is filtered only
against the accumulated (owner) list, never against itself. -/
theorem determineRecipients_duplicate_custom :
    (determineRecipients
        (fun u => if u = "owner" then some "owner@x.example" else none)
        true [] [] ⟨7, "t", "u", "owner", [], [], none, false⟩
        (some ["dup@x.example", "dup@x.example"])).1 =
      ["owner@x.example", "dup@x.example", "dup@x.example"] ∧
    ((determineRecipients
        (fun u => if u = "owner" then some "owner@x.example" else none)
        true [] [] ⟨7, "t", "u", "owner", [], [], none, false⟩
        (some ["dup@x.example", "dup@x.example"])).1.count "dup@x.example" = 2) := by
  refine ⟨by decide, by decide⟩

/-! ### Theorems about the ready-to-merge dispatch path -/

/-- The modelled gate evaluates the synthesized pair
`(pull_request, ready_to_merge)` to exactly the dedicated switch, for every
six-category configuration. -/
theorem isNotificationEnabled_ready_to_merge (cfg : NotifyConfig) (rtm : Bool) :
    isNotificationEnabled cfg rtm "pull_request" (some "ready_to_merge") = rtm := by
  simp [isNotificationEnabled]

/-- C4: `sendReadyToMergeNotification` is gated by the dedicated
ready-to-merge switch alone: with the switch off it returns the tagged
disabled result and performs no dispatch, whatever the six per-category
switches say; its behaviour is identical under any two six-category
configurations; and with the switch on, a valid context, a PR in the
payload and a non-empty resolved recipient list, exactly one dispatch is
performed and the result carries the send oracle's success flag. -/
theorem sendReadyToMerge_dedicated_switch (cfgA cfgB : NotifyConfig) (rtm ctxValid : Bool)
    (emailOf : String → Option String) (includeAdditional : Bool)
    (cfgEmails cfgUsernames : List String) (payloadPR : Option PullRequest)
    (sendSuccess : Bool) :
    (sendReadyToMergeNotification cfgA false ctxValid emailOf includeAdditional
        cfgEmails cfgUsernames payloadPR sendSuccess =
      (⟨false, some "Ready-to-merge notifications disabled", none, []⟩, 0)) ∧
    (sendReadyToMergeNotification cfgA rtm ctxValid emailOf includeAdditional
        cfgEmails cfgUsernames payloadPR sendSuccess =
      sendReadyToMergeNotification cfgB rtm ctxValid emailOf includeAdditional
        cfgEmails cfgUsernames payloadPR sendSuccess) ∧
    (∀ pr, payloadPR = some pr → rtm = true → ctxValid = true →
      (determineRecipients emailOf includeAdditional cfgEmails cfgUsernames pr none).1 ≠
        [] →
      (sendReadyToMergeNotification cfgA rtm ctxValid emailOf includeAdditional
          cfgEmails cfgUsernames payloadPR sendSuccess).2 = 1 ∧
      (sendReadyToMergeNotification cfgA rtm ctxValid emailOf includeAdditional
          cfgEmails cfgUsernames payloadPR sendSuccess).1.success = sendSuccess) := by
  refine ⟨?_, ?_, ?_⟩
  · simp [sendReadyToMergeNotification, isNotificationEnabled_ready_to_merge]
  · simp only [sendReadyToMergeNotification, isNotificationEnabled_ready_to_merge]
  · intro pr hpr hrtm hctx hne
    subst hpr hrtm hctx
    have hempty : (determineRecipients emailOf includeAdditional cfgEmails cfgUsernames
        pr none).1.isEmpty = false := by
      simpa [List.isEmpty_iff] using hne
    constructor <;>
      simp [sendReadyToMergeNotification, isNotificationEnabled_ready_to_merge, hempty]

/-- Witness for `sendReadyToMerge_dedicated_switch`: all six category
switches off, the dedicated switch on, a valid context and a resolvable
owner yield exactly one dispatch whose success mirrors the send oracle. -/
theorem sendReadyToMerge_dedicated_switch_witness :
    (sendReadyToMergeNotification ⟨false, false, false, false, false, false⟩ true true
        sampleEmailOf false [] [] (some samplePR) true).2 = 1 ∧
    (sendReadyToMergeNotification ⟨false, false, false, false, false, false⟩ true true
        sampleEmailOf false [] [] (some samplePR) true).1.success = true :=
  (sendReadyToMerge_dedicated_switch ⟨false, false, false, false, false, false⟩
      ⟨true, true, true, true, true, true⟩ true true sampleEmailOf false [] []
      (some samplePR) true).2.2 samplePR rfl rfl rfl (by decide)

/-! ### Theorems about the check-run aggregator and handler -/

/-- A filter and its pointwise negation partition a list. -/
theorem length_filter_add_length_filter_not {α : Type} (p : α → Bool) (l : List α) :
    (l.filter p).length + (l.filter (fun a => !(p a))).length = l.length := by
  induction l with
  | nil => rfl
  | cons a l ih =>
    cases hp : p a <;> simp [List.filter_cons, hp] <;> omega

/-- C7: `analyzeCheckRuns` partitions by `status == 'completed'`; among
completed runs it counts passed exactly the `success` conclusions, failed
exactly the `failure`/`timed_out`/`action_required` conclusions and skipped
exactly the `skipped`/`neutral`/`cancelled` conclusions; `allCompleted`
holds exactly when the in-progress count is zero; and on five completed
`success` runs it returns `allCompleted = true`, 5 passed, 0 failed. -/
theorem analyzeCheckRuns_partition (runs : List CheckRun) (trig : String) :
    (analyzeCheckRuns runs trig).completed =
      runs.countP (fun r => r.status == "completed") ∧
    (analyzeCheckRuns runs trig).inProgress =
      runs.countP (fun r => r.status != "completed") ∧
    (analyzeCheckRuns runs trig).completed + (analyzeCheckRuns runs trig).inProgress =
      runs.length ∧
    (analyzeCheckRuns runs trig).passed =
      runs.countP (fun r => r.status == "completed" && r.conclusion == some "success") ∧
    (analyzeCheckRuns runs trig).failed =
      runs.countP (fun r =>
        r.status == "completed" && conclusionIn failedConclusions r.conclusion) ∧
    (analyzeCheckRuns runs trig).skipped =
      runs.countP (fun r =>
        r.status == "completed" && conclusionIn skippedConclusions r.conclusion) ∧
    ((analyzeCheckRuns runs trig).allCompleted = true ↔
      (analyzeCheckRuns runs trig).inProgress = 0) ∧
    (analyzeCheckRuns fiveSuccessRuns "check-5").allCompleted = true ∧
    (analyzeCheckRuns fiveSuccessRuns "check-5").passed = 5 ∧
    (analyzeCheckRuns fiveSuccessRuns "check-5").failed = 0 := by
  refine ⟨?_, ?_, ?_, ?_, ?_, ?_, ?_, by decide, by decide, by decide⟩
  · simp [analyzeCheckRuns, List.countP_eq_length_filter]
  · simp [analyzeCheckRuns, List.countP_eq_length_filter]
  · simp only [analyzeCheckRuns]
    have h := length_filter_add_length_filter_not
      (fun r : CheckRun => r.status == "completed") runs
    simpa [bne] using h
  · simp [analyzeCheckRuns, List.countP_eq_length_filter, List.filter_filter,
      Bool.and_comm]
  · simp [analyzeCheckRuns, List.countP_eq_length_filter, List.filter_filter,
      Bool.and_comm]
  · simp [analyzeCheckRuns, List.countP_eq_length_filter, List.filter_filter,
      Bool.and_comm]
  · simp [analyzeCheckRuns]

/-- C10: the result of `handleCheckRun` and the number of notification
attempts it performs are independent of the prior contents of the
`recentEvents` dedup map: processing the same event with the same oracles
against any two map states yields the same decision — the map is written
and evicted but never consulted, so a repeated delivery within the window
is not suppressed. -/
theorem handleCheckRun_map_independent (allCheckRuns : List CheckRun)
    (fetchPR : Nat → Except String PullRequest) (sendOk : Nat → Bool)
    (checkRunPayload : Option CheckRun) (action : String) (now : Nat)
    (m1 m2 : EventMap) :
    (handleCheckRun allCheckRuns fetchPR sendOk checkRunPayload action now m1).1 =
      (handleCheckRun allCheckRuns fetchPR sendOk checkRunPayload action now m2).1 ∧
    (handleCheckRun allCheckRuns fetchPR sendOk checkRunPayload action now m1).2.2 =
      (handleCheckRun allCheckRuns fetchPR sendOk checkRunPayload action now m2).2.2 := by
  cases checkRunPayload with
  | none => exact ⟨rfl, rfl⟩
  | some checkRun =>
    simp only [handleCheckRun]
    split_ifs <;> exact ⟨rfl, rfl⟩

end PRNotify
